import Mathlib

/-!
Verification development for the Rumble Recognition gastric interoception task
(`rumble_recognition.py` and `rumble_recognition_functions.py`).

The embedding below translates the deterministic data flow of the task into
Lean definitions:

* stimulus-order plan generation (`stim_order`, from the block that builds
  `stim_order` in `run_gastric_stethoscope_self`);
* the dietary-condition bucketing (`condition`);
* the sound-presentation dispatch and response coding of
  `run_discrimination_trial` and `run_training`;
* the audio files written/played across a session;
* the session-log rows written to the TSV file;
* the confidence slider loop of `get_confidence_mouse`;
* the log-filename collision scheme.

Randomness (`random.shuffle`, `random.uniform`) and participant input are
modelled as explicit parameters; file-system and serial side effects are
modelled as the lists of names/rows the code produces, in write order.
-/

namespace RumbleRecognition

set_option maxRecDepth 20000

/-- The two kinds of sound a trial presents: the live loopback stream and the
pre-recorded playback.  (In the source the live sound is the `sd.Stream`
loopback block; the pre-recorded sound is `sd.play` of `sound_file_play`.) -/
inductive SoundKind
  | live
  | prerecorded
deriving DecidableEq

/-- Embedding of `set_of_10 = [1] * half_trials_per_set + [2] * half_trials_per_set`
with `half_trials_per_set = 5` (order codes are Python ints). -/
def set_of_10 : List Int := List.replicate 5 1 ++ List.replicate 5 2

/-- Embedding of the stimulus-order generation in `run_gastric_stethoscope_self`:

    for _ in range(trials // 3):
        set_of_10 = [1] * half_trials_per_set + [2] * half_trials_per_set
        random.shuffle(set_of_10)
        stim_order.extend(set_of_10)

`random.shuffle` is modelled by an explicit family `shuffle i` giving the
permutation applied on loop iteration `i`. -/
def stim_order (shuffle : Nat → List Int → List Int) (trials : Nat) : List Int :=
  (List.range (trials / 3)).foldl (fun acc i => acc ++ shuffle i set_of_10) []

/-- Embedding of the dietary-condition selection in the main trial loop:

    if t < 9: condition = 'Fasted'
    elif 9 <= t < 19: condition = 'Post_Drink_1'
    else: condition = 'Post_Drink_2'
-/
def condition (t : Nat) : String :=
  if t < 9 then "Fasted"
  else if 9 ≤ t ∧ t < 19 then "Post_Drink_1"
  else "Post_Drink_2"

/-- Embedding of the sound-presentation dispatch of `run_discrimination_trial`:
`if participant_loc == 1:` live then pre-recorded, `else:` pre-recorded then
live. -/
def trial_sound_order (participant_loc : Int) : List SoundKind :=
  if participant_loc = 1 then [SoundKind.live, SoundKind.prerecorded]
  else [SoundKind.prerecorded, SoundKind.live]

/-- Embedding of `buttons = ['Sound 1', 'Sound 2']`. -/
def buttons : List String := ["Sound 1", "Sound 2"]

/-- Embedding of `response_code = [1, 2][response]` where `response` is the
selected button index (always 0 or 1, as it is produced by iterating over the
two buttons). -/
def response_code_of (pos : Fin 2) : Int := ([1, 2] : List Int).get pos

/-- A participant's input to one trial: the on-screen button position selected
(0 = left / `Sound 1`, 1 = right / `Sound 2`) and the confidence value that
`get_confidence_mouse` returns. -/
structure Response where
  pos : Fin 2
  confidence : ℚ

/-- Observable outcome of `run_discrimination_trial`: the order the two sounds
were presented in, the file played as the pre-recorded sound, the file the
concurrent capture was saved to, and the returned
`(buttons[response], response_code, confidence)` triple. -/
structure TrialOutcome where
  sounds : List SoundKind
  played : String
  recorded : String
  button : String
  code : Int
  confidence : ℚ

/-- Embedding of `run_discrimination_trial(win, ser, fs, duration, trial_num,
participant_loc, gastric_sound_dir, sound_file_play, ...)`: presents the two
sounds in the order dispatched on `participant_loc`, plays `sound_file_play`
as the pre-recorded sound, records the next capture to
`gastric_rec_<trial_num+1>.wav` (file names are relative to
`gastric_sound_dir`), and returns the response triple with
`response_code = [1, 2][response]`. -/
def run_discrimination_trial (trial_num : Nat) (participant_loc : Int)
    (sound_file_play : String) (r : Response) : TrialOutcome :=
  { sounds := trial_sound_order participant_loc
    played := sound_file_play
    recorded := "gastric_rec_" ++ toString (trial_num + 1) ++ ".wav"
    button := buttons.get r.pos
    code := response_code_of r.pos
    confidence := r.confidence }

/-- Embedding of the return value of `run_training`: the training trial plays
live then pre-recorded in fixed order and returns
`(buttons[response], response_code, confidence)` with the same
`[1, 2][response]` coding as a discrimination trial. -/
def run_training (r : Response) : String × Int × ℚ :=
  (buttons.get r.pos, response_code_of r.pos, r.confidence)

/-- The pre-recorded sound file the main loop passes to trial `t`:
`sound_file_play = os.path.join(gastric_sound_dir, 'gastric_rec_' + str(t) + '.wav')`
(names are relative to `gastric_sound_dir`). -/
def trial_sound_file_play (t : Nat) : String :=
  "gastric_rec_" ++ toString t ++ ".wav"

/-- Outcome of main-loop trial `t` given the stimulus-order plan `stim` and per
trial responses `tr`. -/
def session_trial (stim : Nat → Int) (tr : Nat → Response) (t : Nat) : TrialOutcome :=
  run_discrimination_trial t (stim t) (trial_sound_file_play t) (tr t)

/-- Audio files written by `run_instructions_calibration`, in write order: the
first capture is saved as `gastric_rec_training.wav`, the second as
`gastric_rec_0.wav`. -/
def calibration_audio_writes : List String :=
  ["gastric_rec_training.wav", "gastric_rec_0.wav"]

/-- All audio files a session writes, in write order: the two calibration
captures followed by, for each main-loop trial `t` in `range(0, trials)` with
`trials = 30`, the capture that `run_discrimination_trial` saves as
`gastric_rec_<t+1>.wav`. -/
def session_audio_writes (stim : Nat → Int) (tr : Nat → Response) : List String :=
  calibration_audio_writes ++ (List.range 30).map (fun t => (session_trial stim tr t).recorded)

/-- One cell of a TSV row, keeping the Python value's type (`csv.writer`
stringifies strings, ints and floats when the row is rendered). -/
inductive Cell
  | ofString (s : String)
  | ofInt (n : Int)
  | ofRat (q : ℚ)
deriving DecidableEq

/-- The baseline (T1) questionnaire items, as `(label, question, scale)`
triples, literal from the source (trailing spaces included). -/
def questionsT1 : List (String × String × List String) :=
  [("Hunger1", "I am", ["Not at all hungry", "Very hungry"]),
   ("Thirst1 ", "I feel", ["Not at all thirsty", "Very thirsty"]),
   ("Nausea1", "I feel", ["Not at all nauseous", "Very nauseous"]),
   ("Disgust1 ", "I feel", ["Not at all disgusted", "Very disgusted"])]

/-- The T2 questionnaire items (after trial index 9). -/
def questionsT2 : List (String × String × List String) :=
  [("Hunger2", "I am", ["Not at all hungry", "Very hungry"]),
   ("Thirst2 ", "I feel", ["Not at all thirsty", "Very thirsty"]),
   ("Nausea2", "I feel", ["Not at all nauseous", "Very nauseous"]),
   ("Disgust2 ", "I feel", ["Not at all disgusted", "Very disgusted"])]

/-- The T3 questionnaire items (after trial index 19). -/
def questionsT3 : List (String × String × List String) :=
  [("Hunger3", "I am", ["Not at all hungry", "Very hungry"]),
   ("Thirst3 ", "I feel", ["Not at all thirsty", "Very thirsty"]),
   ("Nausea3", "I feel", ["Not at all nauseous", "Very nauseous"]),
   ("Disgust3 ", "I feel", ["Not at all disgusted", "Very disgusted"])]

/-- The closing (T4) questionnaire items (after trial index 29). -/
def questionsT4 : List (String × String × List String) :=
  [("Hunger4", "I am", ["Not at all hungry", "Very hungry"]),
   ("Thirst4 ", "I feel", ["Not at all thirsty", "Very thirsty"]),
   ("Nausea4", "I feel", ["Not at all nauseous", "Very nauseous"]),
   ("Disgust4 ", "I feel", ["Not at all disgusted", "Very disgusted"]),
   ("TaskGeneral", "I find the task", ["Very unpleasant", "Very pleasant"]),
   ("Difficulty", "I find the task", ["Very easy", "Very hard"]),
   ("Gut_Norm ", "Usually my stomach", ["Is still/\nQuiet", "Moves a lot/\nIs noisy"]),
   ("Drink1_Like ", "Drink 1 was", ["Very unpleasant", "Very pleasant"]),
   ("Drink2_Like ", "Drink 2 was", ["Very unpleasant", "Very pleasant"])]

/-- Embedding of the rows `get_post_task_qs` writes: for each `(label, question,
scale)` item, one row `['Question', label, response, 'NA', 'NA']`.  The slider
response for each item is modelled by `answer label`. -/
def get_post_task_qs (qs : List (String × String × List String))
    (answer : String → ℚ) : List (List Cell) :=
  qs.map (fun q =>
    [Cell.ofString "Question", Cell.ofString q.1, Cell.ofRat (answer q.1),
     Cell.ofString "NA", Cell.ofString "NA"])

/-- The first row written to the session log:
`csv_writer.writerow(['Participant ID', participant_id])`. -/
def header_row_1 (participant_id : String) : List Cell :=
  [Cell.ofString "Participant ID", Cell.ofString participant_id]

/-- The second row written to the session log:
`csv_writer.writerow(['Trial', 'Participant_Sound_Loc', 'Button', 'Response_code', 'Confidence'])`. -/
def header_row_2 : List Cell :=
  [Cell.ofString "Trial", Cell.ofString "Participant_Sound_Loc",
   Cell.ofString "Button", Cell.ofString "Response_code", Cell.ofString "Confidence"]

/-- The training row:
`csv_writer.writerow(['Training', '1', button, response_code, confidence])`
(note the location field is the string `'1'`). -/
def training_row (r : Response) : List Cell :=
  [Cell.ofString "Training", Cell.ofString "1", Cell.ofString (run_training r).1,
   Cell.ofInt (run_training r).2.1, Cell.ofRat (run_training r).2.2]

/-- A main-loop trial row:
`csv_writer.writerow([t, stim_order[t], button, response_code, confidence])`. -/
def trial_row (stim : Nat → Int) (tr : Nat → Response) (t : Nat) : List Cell :=
  [Cell.ofInt (Int.ofNat t), Cell.ofInt (stim t),
   Cell.ofString (session_trial stim tr t).button,
   Cell.ofInt (session_trial stim tr t).code,
   Cell.ofRat (session_trial stim tr t).confidence]

/-- All rows a session writes to the TSV log, in chronological write order:
the two header rows, the training row, the T1 questionnaire rows, then for
each trial `t` in `range(0, 30)` the trial row followed by the T2/T3/T4
questionnaire rows after trials 9, 19 and 29 respectively (the `break` after
trial 29 ends the loop at its last index, writing nothing further). -/
def session_log (participant_id : String) (stim : Nat → Int) (training : Response)
    (tr : Nat → Response) (answer : String → ℚ) : List (List Cell) :=
  header_row_1 participant_id :: header_row_2 :: training_row training ::
    (get_post_task_qs questionsT1 answer ++
      (List.range 30).flatMap (fun t =>
        trial_row stim tr t ::
          ((if t = 9 then get_post_task_qs questionsT2 answer else []) ++
           (if t = 19 then get_post_task_qs questionsT3 answer else []) ++
           (if t = 29 then get_post_task_qs questionsT4 answer else []))))

/-- One iteration of the `get_confidence_mouse` polling loop as it affects the
marker value: `slider_value = (mouse_x + 300) / 6` and the marker is updated
only `if 0 <= slider_value <= 100`. -/
def confidence_step (markerPos : ℚ) (mouse_x : ℚ) : ℚ :=
  if 0 ≤ (mouse_x + 300) / 6 ∧ (mouse_x + 300) / 6 ≤ 100 then (mouse_x + 300) / 6
  else markerPos

/-- Embedding of `get_confidence_mouse`: starting from the random initial
marker position (`random.uniform(20, 80)`), the marker tracks the sequence of
observed mouse x-positions until the confirming click, and the value returned
is the marker position at click time. -/
def get_confidence_mouse (initial_position : ℚ) (moves : List ℚ) : ℚ :=
  moves.foldl confidence_step initial_position

/-- Model of Python `s.startswith(pre)`. -/
def str_startswith (s pre : String) : Bool := pre.toList.isPrefixOf s.toList

/-- Model of Python `s.endswith(suf)`. -/
def str_endswith (s suf : String) : Bool := suf.toList.isSuffixOf s.toList

/-- Embedding of the per-file suffix parse in the collision-resolution scan:
skip the base file itself; for files of the form `<base_name>_<suffix>.tsv`
with a single alphabetic `suffix` (`file[len(base_name) + 1 : -4]`), yield
`ord(suffix.lower()) - ord('a')` (for a one-character string, lowering the
string and lowering its character agree). -/
def suffix_index (base_name file : String) : Option Nat :=
  if file = base_name ++ ".tsv" then none
  else if str_startswith file (base_name ++ "_") && str_endswith file ".tsv" then
    let suffix := (file.drop (base_name.length + 1)).dropRight 4
    if suffix.length = 1 && suffix.toList.all Char.isAlpha then
      some ((suffix.toList.headD 'a').toLower.toNat - ('a').toNat)
    else none
  else none

/-- Embedding of the session-log filename choice in
`run_gastric_stethoscope_self` over a directory listing: if
`<base_name>.tsv` exists, scan files starting with `base_name`, collect
single-letter suffix indices, and use `max(indices) + 1` (`0` when none) as
the next letter; otherwise use the base name. -/
def next_log_name (base_name : String) (dir_listing : List String) : String :=
  if (base_name ++ ".tsv") ∈ dir_listing then
    let existing_files := dir_listing.filter (fun f => str_startswith f base_name)
    let indices := existing_files.filterMap (suffix_index base_name)
    let next_index := match indices.max? with
      | none => 0
      | some m => m + 1
    base_name ++ "_" ++ String.singleton (Char.ofNat (('a').toNat + next_index)) ++ ".tsv"
  else
    base_name ++ ".tsv"

/-- Row grammar of the claimed trial rows:
`<index-or-"Training">, <1|2>, <button label>, <1|2>, <0-100>`. -/
def is_trial_row (row : List Cell) : Prop :=
  ∃ idx loc button code conf,
    row = [idx, loc, Cell.ofString button, Cell.ofInt code, Cell.ofRat conf] ∧
    ((∃ n : Int, idx = Cell.ofInt n) ∨ idx = Cell.ofString "Training") ∧
    (loc = Cell.ofInt 1 ∨ loc = Cell.ofInt 2 ∨
      loc = Cell.ofString "1" ∨ loc = Cell.ofString "2") ∧
    (code = 1 ∨ code = 2) ∧ 0 ≤ conf ∧ conf ≤ 100

/-- Row grammar of the claimed question rows: `Question, <label>, <0-100>, NA, NA`. -/
def is_question_row (row : List Cell) : Prop :=
  ∃ label rating,
    row = [Cell.ofString "Question", Cell.ofString label, Cell.ofRat rating,
           Cell.ofString "NA", Cell.ofString "NA"] ∧
    0 ≤ rating ∧ rating ≤ 100

/-! ## General lemmas -/

theorem length_foldl_append {α : Type} (l : List Nat) (acc : List α) (f : Nat → List α)
    (h : ∀ i, (f i).length = 10) :
    (l.foldl (fun a i => a ++ f i) acc).length = acc.length + l.length * 10 := by
  induction l generalizing acc with
  | nil => simp
  | cons x xs ih =>
    simp only [List.foldl_cons, List.length_cons, ih (acc ++ f x)]
    simp [h x]
    ring

theorem response_code_of_mem (pos : Fin 2) :
    response_code_of pos = 1 ∨ response_code_of pos = 2 := by
  fin_cases pos
  · exact Or.inl rfl
  · exact Or.inr rfl

theorem confidence_step_bounds (marker x : ℚ) (h0 : 0 ≤ marker) (h1 : marker ≤ 100) :
    0 ≤ confidence_step marker x ∧ confidence_step marker x ≤ 100 := by
  unfold confidence_step
  split
  · next h => exact ⟨h.1, h.2⟩
  · next => exact ⟨h0, h1⟩

theorem get_confidence_mouse_bounds (moves : List ℚ) :
    ∀ init : ℚ, 0 ≤ init → init ≤ 100 →
      0 ≤ get_confidence_mouse init moves ∧ get_confidence_mouse init moves ≤ 100 := by
  induction moves with
  | nil => exact fun init h0 h1 => ⟨h0, h1⟩
  | cons x xs ih =>
    intro init h0 h1
    have hs := confidence_step_bounds init x h0 h1
    exact ih (confidence_step init x) hs.1 hs.2

/-! ## Claim theorems -/

/-- C1: the claim says the generated stimulus-order plan is a sequence of
exactly 30 order-codes built from three independently shuffled blocks of 10.
The source instead iterates `for _ in range(trials // 3)` with `trials = 30`,
i.e. ten shuffled blocks of 10, so the generated plan has 100 order-codes (its
own comment says "Create three sets of 10 trials"; only the first 30 entries
are ever used by the trial loop).  For every family of shuffles that permutes
each block (as `random.shuffle` does), the plan's length is 100, not 30;
instantiated at the identity shuffle. -/
theorem stim_order_plan_has_100_codes :
    (∀ shuffle : Nat → List Int → List Int,
        (∀ i, (shuffle i set_of_10).Perm set_of_10) →
        (stim_order shuffle 30).length = 100) ∧
    (stim_order (fun _ l => l) 30).length = 100 := by
  constructor
  · intro shuffle hperm
    have hlen : ∀ i, (shuffle i set_of_10).length = 10 := by
      intro i
      rw [(hperm i).length_eq]
      decide
    simpa using length_foldl_append (List.range 10) [] (fun i => shuffle i set_of_10) hlen
  · decide

/-- Witness for C1's theorem at the identity shuffle. -/
theorem stim_order_plan_has_100_codes_witness :
    (stim_order (fun _ l => l) 30).length = 100 :=
  stim_order_plan_has_100_codes.1 (fun _ l => l) (fun _ => List.Perm.refl _)

/-- C2: the dietary condition is a pure function of the trial index: indices
0-8 give "Fasted", 9-18 give "Post_Drink_1", 19-29 give "Post_Drink_2", with
the boundary values 8, 9, 18 and 19 as stated. -/
theorem condition_buckets :
    (∀ t : Nat, t ≤ 8 → condition t = "Fasted") ∧
    (∀ t : Nat, 9 ≤ t → t ≤ 18 → condition t = "Post_Drink_1") ∧
    (∀ t : Nat, 19 ≤ t → t ≤ 29 → condition t = "Post_Drink_2") ∧
    condition 8 = "Fasted" ∧ condition 9 = "Post_Drink_1" ∧
    condition 18 = "Post_Drink_1" ∧ condition 19 = "Post_Drink_2" := by
  refine ⟨?_, ?_, ?_, by decide, by decide, by decide, by decide⟩
  · intro t h
    unfold condition
    rw [if_pos (by omega)]
  · intro t h h'
    unfold condition
    rw [if_neg (by omega), if_pos (by omega)]
  · intro t h h'
    unfold condition
    rw [if_neg (by omega), if_neg (by omega)]

/-- Witness for C2's theorem: the middle bucket at trial index 10. -/
theorem condition_buckets_witness : condition 10 = "Post_Drink_1" :=
  condition_buckets.2.1 10 (by norm_num) (by norm_num)

/-- C3: in every discrimination trial, order-code 1 presents the live
(loopback) sound first and the pre-recorded sound second, and order-code 2
presents the pre-recorded sound first and the live sound second. -/
theorem order_code_dictates_presentation :
    ∀ (t : Nat) (play : String) (r : Response),
      (run_discrimination_trial t 1 play r).sounds =
          [SoundKind.live, SoundKind.prerecorded] ∧
      (run_discrimination_trial t 2 play r).sounds =
          [SoundKind.prerecorded, SoundKind.live] := by
  intro t play r
  exact ⟨rfl, rfl⟩

/-- C4: the response code returned by a trial is a pure function of the
selected on-screen position (position 0 gives code 1, position 1 gives code
2), independent of the trial's order-code; `run_training` uses the same
mapping. -/
theorem response_code_is_position_pure :
    response_code_of 0 = 1 ∧ response_code_of 1 = 2 ∧
    (∀ (t : Nat) (loc : Int) (play : String) (r : Response),
        (run_discrimination_trial t loc play r).code = response_code_of r.pos) ∧
    (∀ (t t' : Nat) (loc loc' : Int) (play play' : String) (pos : Fin 2) (c c' : ℚ),
        (run_discrimination_trial t loc play ⟨pos, c⟩).code =
          (run_discrimination_trial t' loc' play' ⟨pos, c'⟩).code) ∧
    (∀ r : Response, (run_training r).2.1 = response_code_of r.pos) := by
  exact ⟨rfl, rfl, fun _ _ _ _ => rfl, fun _ _ _ _ _ _ _ _ _ => rfl, fun _ => rfl⟩

/-- C10: the trial dispatcher branches only on `participant_loc == 1`: every
order-code other than 1 presents the pre-recorded sound first and the live
sound second, and every integer order-code yields one of the two
presentations (no validation against the set 1, 2). -/
theorem dispatch_branches_only_on_one :
    (∀ loc : Int, loc ≠ 1 →
        trial_sound_order loc = [SoundKind.prerecorded, SoundKind.live]) ∧
    (∀ loc : Int,
        trial_sound_order loc = [SoundKind.live, SoundKind.prerecorded] ∨
        trial_sound_order loc = [SoundKind.prerecorded, SoundKind.live]) := by
  constructor
  · intro loc h
    unfold trial_sound_order
    rw [if_neg h]
  · intro loc
    by_cases h : loc = 1
    · left
      unfold trial_sound_order
      rw [if_pos h]
    · right
      unfold trial_sound_order
      rw [if_neg h]

/-- Witness for C10's theorem: order-code 5 presents pre-recorded first. -/
theorem dispatch_branches_only_on_one_witness :
    trial_sound_order 5 = [SoundKind.prerecorded, SoundKind.live] :=
  dispatch_branches_only_on_one.1 5 (by decide)

/-- C8: the confidence collector starts its marker in [20, 80], only accepts
marker updates whose mapped value `(mouse_x + 300) / 6` lies in [0, 100], and
the value returned at confirmation (the last tracked marker position) is
always in [0, 100]. -/
theorem confidence_rating_bounds :
    (∀ (init : ℚ) (moves : List ℚ), 20 ≤ init → init ≤ 80 →
        0 ≤ get_confidence_mouse init moves ∧ get_confidence_mouse init moves ≤ 100) ∧
    (∀ marker x : ℚ,
        confidence_step marker x = marker ∨
        (0 ≤ (x + 300) / 6 ∧ (x + 300) / 6 ≤ 100 ∧
          confidence_step marker x = (x + 300) / 6)) := by
  constructor
  · intro init moves h0 h1
    exact get_confidence_mouse_bounds moves init (by linarith) (by linarith)
  · intro marker x
    unfold confidence_step
    split
    · next h => exact Or.inr ⟨h.1, h.2, rfl⟩
    · next => exact Or.inl rfl

/-- Witness for C8's theorem at a concrete initial value and move sequence. -/
theorem confidence_rating_bounds_witness :
    0 ≤ get_confidence_mouse 50 [0, 1000] ∧ get_confidence_mouse 50 [0, 1000] ≤ 100 :=
  confidence_rating_bounds.1 50 [0, 1000] (by norm_num) (by norm_num)

/-- C5 counterexample: trial 29's capture is saved as `gastric_rec_30.wav`,
which the session writes but which is not among the claimed assets
(`gastric_rec_training.wav` plus `gastric_rec_0.wav` … `gastric_rec_29.wav`). -/
theorem audio_writes_not_capped_at_29 :
    "gastric_rec_30.wav" ∈ session_audio_writes (fun _ => 1) (fun _ => ⟨0, 50⟩) ∧
    "gastric_rec_30.wav" ∉
      "gastric_rec_training.wav" ::
        (List.range 30).map (fun t => "gastric_rec_" ++ toString t ++ ".wav") := by
  decide

/-- C5 (amended): the audio assets written during a session are exactly
`gastric_rec_training.wav` plus `gastric_rec_0.wav` through
`gastric_rec_30.wav`: calibration saves its first capture as
`gastric_rec_training.wav` and its second as `gastric_rec_0.wav`, and for
every trial index `t` the capture taken during trial `t` is saved as
`gastric_rec_<t+1>.wav` while `gastric_rec_<t>.wav` is the pre-recorded sound
played in trial `t` (each trial's capture feeds the next trial; trial 29's
capture, `gastric_rec_30.wav`, feeds no trial). -/
theorem audio_assets_written :
    ∀ (stim : Nat → Int) (tr : Nat → Response),
      session_audio_writes stim tr =
        "gastric_rec_training.wav" ::
          (List.range 31).map (fun t => "gastric_rec_" ++ toString t ++ ".wav") ∧
      (∀ t, (session_trial stim tr t).recorded =
          "gastric_rec_" ++ toString (t + 1) ++ ".wav") ∧
      (∀ t, (session_trial stim tr t).played =
          "gastric_rec_" ++ toString t ++ ".wav") ∧
      (∀ t, (session_trial stim tr t).recorded = (session_trial stim tr (t + 1)).played) := by
  intro stim tr
  refine ⟨?_, fun t => rfl, fun t => rfl, fun t => rfl⟩
  simp only [session_audio_writes, session_trial, run_discrimination_trial,
    calibration_audio_writes]
  decide

/-- C6: log filename collision is resolved by scanning the directory for
same-prefixed files and appending the next unused single-letter suffix: when
exactly `sub-999_rumble_recognition.tsv` and `sub-999_rumble_recognition_a.tsv`
exist, the chosen name is `sub-999_rumble_recognition_b.tsv`; in general, when
the base file exists, the chosen suffix letter is strictly beyond every
suffix index already present in the directory (hence unused). -/
theorem collision_next_letter :
    next_log_name "sub-999_rumble_recognition"
        ["sub-999_rumble_recognition.tsv", "sub-999_rumble_recognition_a.tsv"] =
      "sub-999_rumble_recognition_b.tsv" ∧
    ∀ (base : String) (listing : List String),
      (base ++ ".tsv") ∈ listing →
      ∃ k : Nat,
        next_log_name base listing =
          base ++ "_" ++ String.singleton (Char.ofNat (('a').toNat + k)) ++ ".tsv" ∧
        (∀ i ∈ (listing.filter (fun f => str_startswith f base)).filterMap
            (suffix_index base), i < k) ∧
        ((listing.filter (fun f => str_startswith f base)).filterMap
            (suffix_index base) = [] → k = 0) ∧
        ((listing.filter (fun f => str_startswith f base)).filterMap
            (suffix_index base) ≠ [] →
          k - 1 ∈ (listing.filter (fun f => str_startswith f base)).filterMap
            (suffix_index base)) := by
  constructor
  · decide
  · intro base listing h
    unfold next_log_name
    rw [if_pos h]
    cases hmax : ((listing.filter (fun f => str_startswith f base)).filterMap
        (suffix_index base)).max? with
    | none =>
      have hnil := List.max?_eq_none_iff.mp hmax
      refine ⟨0, by simp only [hmax], ?_, fun _ => rfl, fun hne => absurd hnil hne⟩
      intro i hi
      rw [hnil] at hi
      exact absurd hi (List.not_mem_nil i)
    | some m =>
      have hmem := (List.max?_eq_some_iff'.mp hmax).1
      refine ⟨m + 1, by simp only [hmax], ?_, ?_, fun _ => hmem⟩
      · intro i hi
        have := (List.max?_eq_some_iff'.mp hmax).2 i hi
        omega
      · intro hnil
        rw [hnil] at hmem
        exact absurd hmem (List.not_mem_nil m)

/-- Witness for C6's theorem: its general part applied to a directory holding
only the base file. -/
theorem collision_next_letter_witness :
    ∃ k : Nat,
      next_log_name "sub-7" ["sub-7.tsv"] =
        "sub-7" ++ "_" ++ String.singleton (Char.ofNat (('a').toNat + k)) ++ ".tsv" ∧
      (∀ i ∈ ((["sub-7.tsv"] : List String).filter
          (fun f => str_startswith f "sub-7")).filterMap (suffix_index "sub-7"), i < k) ∧
      (((["sub-7.tsv"] : List String).filter
          (fun f => str_startswith f "sub-7")).filterMap (suffix_index "sub-7") = [] →
        k = 0) ∧
      (((["sub-7.tsv"] : List String).filter
          (fun f => str_startswith f "sub-7")).filterMap (suffix_index "sub-7") ≠ [] →
        k - 1 ∈ ((["sub-7.tsv"] : List String).filter
          (fun f => str_startswith f "sub-7")).filterMap (suffix_index "sub-7")) :=
  collision_next_letter.2 "sub-7" ["sub-7.tsv"] (by decide)

/-- C9: the suffix scan runs only when the un-suffixed base file exists: if
`<base>.tsv` is absent from the directory listing, the base name is chosen
regardless of which suffixed variants exist; instantiated with `_a.tsv` and
`_b.tsv` present. -/
theorem base_absent_uses_base_name :
    (∀ (base : String) (listing : List String),
        (base ++ ".tsv") ∉ listing → next_log_name base listing = base ++ ".tsv") ∧
    next_log_name "sub-999_rumble_recognition"
        ["sub-999_rumble_recognition_a.tsv", "sub-999_rumble_recognition_b.tsv"] =
      "sub-999_rumble_recognition.tsv" := by
  constructor
  · intro base listing h
    unfold next_log_name
    rw [if_neg h]
  · decide

/-- Witness for C9's theorem: the general part applied to an empty directory. -/
theorem base_absent_uses_base_name_witness :
    next_log_name "sub-7" [] = "sub-7" ++ ".tsv" :=
  base_absent_uses_base_name.1 "sub-7" [] (by decide)

end RumbleRecognition

namespace RumbleRecognition

theorem mem_ite_nil {α : Type} {c : Prop} [Decidable c] {l : List α} {x : α}
    (h : x ∈ (if c then l else [])) : x ∈ l := by
  split at h
  · exact h
  · exact absurd h (List.not_mem_nil x)

theorem question_rows_shape (qs : List (String × String × List String))
    (answer : String → ℚ) (h : ∀ lbl, 0 ≤ answer lbl ∧ answer lbl ≤ 100) :
    ∀ row ∈ get_post_task_qs qs answer, is_question_row row := by
  intro row hrow
  simp only [get_post_task_qs, List.mem_map] at hrow
  obtain ⟨q, -, rfl⟩ := hrow
  exact ⟨q.1, answer q.1, rfl, (h q.1).1, (h q.1).2⟩

theorem training_row_shape (r : Response) (h0 : 0 ≤ r.confidence)
    (h1 : r.confidence ≤ 100) : is_trial_row (training_row r) := by
  refine ⟨Cell.ofString "Training", Cell.ofString "1", (run_training r).1,
    (run_training r).2.1, (run_training r).2.2, rfl, Or.inr rfl,
    Or.inr (Or.inr (Or.inl rfl)), ?_, h0, h1⟩
  exact response_code_of_mem r.pos

theorem main_trial_row_shape (stim : Nat → Int) (tr : Nat → Response) (t : Nat)
    (hs : stim t = 1 ∨ stim t = 2) (h0 : 0 ≤ (tr t).confidence)
    (h1 : (tr t).confidence ≤ 100) : is_trial_row (trial_row stim tr t) := by
  refine ⟨Cell.ofInt (Int.ofNat t), Cell.ofInt (stim t),
    (session_trial stim tr t).button, (session_trial stim tr t).code,
    (session_trial stim tr t).confidence, rfl, Or.inl ⟨Int.ofNat t, rfl⟩, ?_, ?_, h0, h1⟩
  · rcases hs with h | h
    · exact Or.inl (by rw [h])
    · exact Or.inr (Or.inl (by rw [h]))
  · exact response_code_of_mem (tr t).pos

/-- C7: the session log's first row is the literal label with the participant
identifier, its second row is the five column headers, and every later row
(in chronological write order, which is the order of the modelled list) is
either a trial row `<index-or-"Training">, <1|2>, <button label>, <1|2>,
<0-100>` or a question row `Question, <label>, <0-100>, NA, NA`. -/
theorem session_log_layout :
    ∀ (pid : String) (stim : Nat → Int) (training : Response)
      (tr : Nat → Response) (answer : String → ℚ),
      (∀ t, t < 30 → stim t = 1 ∨ stim t = 2) →
      0 ≤ training.confidence → training.confidence ≤ 100 →
      (∀ t, 0 ≤ (tr t).confidence ∧ (tr t).confidence ≤ 100) →
      (∀ lbl, 0 ≤ answer lbl ∧ answer lbl ≤ 100) →
      (session_log pid stim training tr answer).head? =
          some [Cell.ofString "Participant ID", Cell.ofString pid] ∧
      (session_log pid stim training tr answer).tail.head? =
          some [Cell.ofString "Trial", Cell.ofString "Participant_Sound_Loc",
            Cell.ofString "Button", Cell.ofString "Response_code",
            Cell.ofString "Confidence"] ∧
      ∀ row ∈ (session_log pid stim training tr answer).drop 2,
        is_trial_row row ∨ is_question_row row := by
  intro pid stim training tr answer hstim h0 h1 htr hans
  refine ⟨rfl, rfl, ?_⟩
  intro row hrow
  simp only [session_log, List.drop_succ_cons, List.drop_zero] at hrow
  rcases List.mem_cons.mp hrow with h | h
  · exact Or.inl (h ▸ training_row_shape training h0 h1)
  rcases List.mem_append.mp h with h | h
  · exact Or.inr (question_rows_shape _ _ hans row h)
  rcases List.mem_flatMap.mp h with ⟨t, ht, hmem⟩
  have ht30 : t < 30 := List.mem_range.mp ht
  rcases List.mem_cons.mp hmem with h' | h'
  · exact Or.inl (h' ▸ main_trial_row_shape stim tr t (hstim t ht30) (htr t).1 (htr t).2)
  right
  rcases List.mem_append.mp h' with h'' | h''
  · rcases List.mem_append.mp h'' with h3 | h3
    · exact question_rows_shape _ _ hans row (mem_ite_nil h3)
    · exact question_rows_shape _ _ hans row (mem_ite_nil h3)
  · exact question_rows_shape _ _ hans row (mem_ite_nil h'')

/-- Witness for C7's theorem at a concrete session: every response selects
position 0 with confidence 50, every stimulus-order code is 1 and every
questionnaire answer is 50. -/
theorem session_log_layout_witness :
    (session_log "999" (fun _ => 1) ⟨0, 50⟩ (fun _ => ⟨0, 50⟩) (fun _ => 50)).head? =
        some [Cell.ofString "Participant ID", Cell.ofString "999"] ∧
    (session_log "999" (fun _ => 1) ⟨0, 50⟩ (fun _ => ⟨0, 50⟩) (fun _ => 50)).tail.head? =
        some [Cell.ofString "Trial", Cell.ofString "Participant_Sound_Loc",
          Cell.ofString "Button", Cell.ofString "Response_code",
          Cell.ofString "Confidence"] ∧
    ∀ row ∈ (session_log "999" (fun _ => 1) ⟨0, 50⟩ (fun _ => ⟨0, 50⟩)
        (fun _ => 50)).drop 2, is_trial_row row ∨ is_question_row row :=
  session_log_layout "999" (fun _ => 1) ⟨0, 50⟩ (fun _ => ⟨0, 50⟩) (fun _ => 50)
    (fun _ _ => Or.inl rfl) (by norm_num) (by norm_num)
    (fun _ => by norm_num) (fun _ => by norm_num)

end RumbleRecognition
